import Mathlib

/-!
Verification of the MacMon metrics reporter (`src/server.py`).

Shallow embedding of the pure formatting and alerting logic of the MacMon
MCP server.  Conventions used throughout:

* Python numbers (floats and ints) are modelled as `ℚ` / `ℕ` / `ℤ`.  All
  quantities reaching the formatting helpers are produced by exact float
  operations in the source (comparisons against `1024.0`, division by a
  power of two, floor division and floor modulus by integer constants), so
  rational arithmetic is a faithful model of the float computation.
* Python fixed-point float formatting (format specifiers .1f and .2f)
  is modelled by `fmtFixed`,
  which rounds to the nearest multiple of `10^-d` with ties to even,
  exactly as the correctly-rounded decimal formatting of an exactly
  representable float behaves.
* Bare `str(x)` interpolation of a numeric value is modelled by
  `toString (x : ℚ)`; for the integral values appearing in every property
  below the two renderings agree.
* The surrounding OS-metrics provider (`psutil`) and the local-time rendering
  of the boot instant (`datetime.fromtimestamp(...).strftime(...)`) are
  inputs: their point-in-time readings are fields of `ProviderState`.
* The MCP `TextContent` result list is modelled as `List String`, and a
  raised `ValueError` as `Except.error` with the same message.
-/

namespace Macmon

/-- Round to the nearest integer, ties to even — the rounding performed by
the Python fixed-point formatting of an exactly representable float. -/
def rneInt (q : ℚ) : ℤ :=
  if Int.fract q < 1/2 then ⌊q⌋
  else if 1/2 < Int.fract q then ⌊q⌋ + 1
  else if ⌊q⌋ % 2 = 0 then ⌊q⌋ else ⌊q⌋ + 1

/-- Left-pad a digit string with zeros to width `d`. -/
def padZeros (d : ℕ) (s : String) : String :=
  String.mk (List.replicate (d - s.length) '0') ++ s

/-- Python fixed-point formatting to d places for a non-negative value: round to `d` decimal
places (ties to even) and print with exactly `d` digits after the dot. -/
def fmtFixed (d : ℕ) (q : ℚ) : String :=
  let t := rneInt (q * (10 : ℚ) ^ d)
  toString (t / (10 : ℤ) ^ d) ++ "." ++ padZeros d (toString (t % (10 : ℤ) ^ d))

/-- The unit ladder traversed by the loop in `format_bytes`
(`src/server.py:21`); the post-loop fallback unit is `PB`. -/
def byteUnits : List String := ["B", "KB", "MB", "GB", "TB"]

/-- The scaling loop of `format_bytes` (`src/server.py:21-24`): repeatedly
divide by 1024 until the value drops below 1024 or the unit list is
exhausted; returns the scaled value together with the chosen unit. -/
def format_bytes_go : ℚ → List String → ℚ × String
  | b, [] => (b, "PB")
  | b, u :: rest => if b < 1024 then (b, u) else format_bytes_go (b / 1024) rest

/-- `format_bytes` (`src/server.py:19-25`): human-readable byte count with
one decimal place. -/
def format_bytes (b : ℚ) : String :=
  let p := format_bytes_go b byteUnits
  fmtFixed 1 p.1 ++ p.2

/-- The numeric value that leads the string produced by `format_bytes`:
the scaled value rounded to one decimal place (the digits printed before
the unit, read back as a rational). -/
def format_bytes_leading (b : ℚ) : ℚ :=
  ((rneInt ((format_bytes_go b byteUnits).1 * 10) : ℤ) : ℚ) / 10

/-- the Python float floor-modulus `u % m` (used with positive constant
moduli in `format_uptime`). -/
def pymod (u m : ℚ) : ℚ := u - m * ((⌊u / m⌋ : ℤ) : ℚ)

/-- `format_uptime` (`src/server.py:27-39`), taking the elapsed duration
`u = (datetime.now() - datetime.fromtimestamp(boot_time)).total_seconds()`
in seconds.  `int(x // n)` on a float is `⌊x / n⌋` and `x % n` is the
floor modulus, both exact for these magnitudes. -/
def format_uptime (u : ℚ) : String :=
  let days : ℤ := ⌊u / 86400⌋
  let hours : ℤ := ⌊pymod u 86400 / 3600⌋
  let minutes : ℤ := ⌊pymod u 3600 / 60⌋
  if 0 < days then
    toString days ++ "d " ++ toString hours ++ "h " ++ toString minutes ++ "m"
  else if 0 < hours then
    toString hours ++ "h " ++ toString minutes ++ "m"
  else
    toString minutes ++ "m"

/-! ## Alerts -/

/-- The fresh percentage readings `check_system_alerts` takes from the
provider (`psutil.cpu_percent`, `virtual_memory().percent`,
`disk_usage` of the root path `.percent`, `swap_memory().percent`). -/
structure AlertSample where
  cpu : ℚ
  memory : ℚ
  disk : ℚ
  swap : ℚ
deriving DecidableEq

/-- One alert dict as built in `check_system_alerts`
(`src/server.py:48-53` etc.): `level` is the string `"high"` or
`"medium"` exactly as in the source. -/
structure Alert where
  level : String
  type : String
  message : String
  value : ℚ
deriving DecidableEq

/-- The message f-string, domain followed by " usage is ", the value and
a percent sign, common to the
four alert branches (`src/server.py:51,61,71,81`). -/
def alertMessage (domain : String) (v : ℚ) : String :=
  domain ++ " usage is " ++ toString v ++ "%"

/-- `check_system_alerts` (`src/server.py:41-85`): one conditional append
per domain, in source order CPU, Memory, Disk, Swap. -/
def check_system_alerts (s : AlertSample) : List Alert :=
  (if s.cpu > 80 then
    [⟨if s.cpu > 90 then "high" else "medium", "CPU",
      alertMessage "CPU" s.cpu, s.cpu⟩]
   else []) ++
  (if s.memory > 85 then
    [⟨if s.memory > 95 then "high" else "medium", "Memory",
      alertMessage "Memory" s.memory, s.memory⟩]
   else []) ++
  (if s.disk > 90 then
    [⟨if s.disk > 95 then "high" else "medium", "Disk",
      alertMessage "Disk" s.disk, s.disk⟩]
   else []) ++
  (if s.swap > 75 then
    [⟨"medium", "Swap", alertMessage "Swap" s.swap, s.swap⟩]
   else [])

/-- Spec-side definition (for the refinement claim only), following the
words of spec §4.1: one domain with a medium threshold and an optional
high threshold; `high` if the value exceeds the high threshold, else
`medium` if it exceeds the medium threshold, else no Alert. -/
def alertForDomain (domain : String) (med : ℚ) (hi : Option ℚ) (v : ℚ) :
    List Alert :=
  match hi with
  | some h =>
    if v > h then [⟨"high", domain, alertMessage domain v, v⟩]
    else if v > med then [⟨"medium", domain, alertMessage domain v, v⟩]
    else []
  | none =>
    if v > med then [⟨"medium", domain, alertMessage domain v, v⟩]
    else []

/-- Spec-side definition (for the refinement claim only): the threshold
table of spec §4.1 in table order CPU, Memory, Disk, Swap, with no high
tier for Swap. -/
def evaluate_alerts_spec (s : AlertSample) : List Alert :=
  alertForDomain "CPU" 80 (some 90) s.cpu ++
  alertForDomain "Memory" 85 (some 95) s.memory ++
  alertForDomain "Disk" 90 (some 95) s.disk ++
  alertForDomain "Swap" 75 none s.swap

/-! ## Process report -/

/-- One process dict as assembled in `get_top_processes`
(`src/server.py:149-155`). -/
structure ProcessEntry where
  pid : ℕ
  name : String
  cpu_percent : ℚ
  memory_percent : ℚ
  memory_mb : ℚ
deriving DecidableEq

/-- The sort key selected by `sort_by` (`src/server.py:162-165`): the
`memory_percent` field for the exact string `"memory"`, the `cpu_percent`
field for everything else. -/
def sortKeyOf (sort_by : String) (p : ProcessEntry) : ℚ :=
  if sort_by == "memory" then p.memory_percent else p.cpu_percent

/-- `list.sort(key=..., reverse=True)` is a stable descending sort; it is
modelled by insertion sort with the before-relation
`a ≼ b ↔ key b ≤ key a`, which is stable in the same sense. -/
def sortedProcs (sort_by : String) (ps : List ProcessEntry) :
    List ProcessEntry :=
  if sort_by == "memory" then
    List.insertionSort (fun a b => b.memory_percent ≤ a.memory_percent) ps
  else
    List.insertionSort (fun a b => b.cpu_percent ≤ a.cpu_percent) ps

/-- Python `str.upper()` as the per-character uppercasing of the
string (agrees with Python on the ASCII sort keys used here). -/
def pyUpper (s : String) : String :=
  String.mk (s.data.map Char.toUpper)

/-- The report header (`src/server.py:168`). -/
def processHeader (limit : ℕ) (sort_by : String) : String :=
  "🔝 **Top " ++ toString limit ++ " Processes by " ++ pyUpper sort_by ++
  "**\n\n"

/-- The `enumerate(processes[:limit], 1)` rendering loop
(`src/server.py:169-172`), carrying the 1-based counter. -/
def renderProcEntries : ℕ → List ProcessEntry → String
  | _, [] => ""
  | i, p :: rest =>
    toString i ++ ". **" ++ p.name ++ "** (PID: " ++ toString p.pid ++ ")\n" ++
    "   • CPU: " ++ fmtFixed 1 p.cpu_percent ++ "%\n" ++
    "   • Memory: " ++ fmtFixed 1 p.memory_percent ++ "% (" ++
    fmtFixed 1 p.memory_mb ++ " MB)\n\n" ++
    renderProcEntries (i + 1) rest

/-- `get_top_processes` (`src/server.py:122-174`) with the provider
process enumeration supplied as input: sort, truncate to `limit`, render
header plus numbered entries. -/
def get_top_processes (ps : List ProcessEntry) (limit : ℕ)
    (sort_by : String) : String :=
  processHeader limit sort_by ++
  renderProcEntries 1 ((sortedProcs sort_by ps).take limit)

/-! ## Provider snapshot and the remaining report builders -/

/-- `psutil.net_io_counters()` fields used by `get_network_stats`. -/
structure NetCounters where
  bytes_sent : ℕ
  bytes_recv : ℕ
  packets_sent : ℕ
  packets_recv : ℕ
  errin : ℕ
  errout : ℕ
  dropin : ℕ
  dropout : ℕ
deriving DecidableEq

/-- One address record from `psutil.net_if_addrs()`: family 2 is IPv4. -/
structure NetAddr where
  family : ℕ
  address : String
deriving DecidableEq

/-- `psutil.cpu_freq()` result (`current`/`max` in MHz); `none` models
both an exception and a falsy result (`src/server.py:217-224`). -/
structure CpuFreq where
  current : ℚ
  freqMax : ℚ
deriving DecidableEq

/-- All point-in-time provider readings consumed by one dispatch call:
every `psutil` read and the local-time rendering of the boot instant
(`datetime.fromtimestamp(boot_time).strftime(...)`, an outside calendar
and timezone service) appear as fields. -/
structure ProviderState where
  cpu_percent : ℚ
  cpu_count : ℕ
  load1 : ℚ
  load5 : ℚ
  load15 : ℚ
  memory_percent : ℚ
  memory_used : ℕ
  memory_total : ℕ
  memory_available : ℕ
  swap_percent : ℚ
  swap_used : ℕ
  swap_total : ℕ
  disk_percent : ℚ
  disk_used : ℕ
  disk_total : ℕ
  disk_free : ℕ
  uptime_seconds : ℚ
  boot_time_str : String
  net : NetCounters
  interfaces : List (String × List NetAddr)
  per_core : List ℚ
  physical_cores : ℕ
  logical_cores : ℕ
  cpu_freq : Option CpuFreq
  processes : List ProcessEntry
  alert_sample : AlertSample

/-- `get_system_status` (`src/server.py:87-120`). -/
def get_system_status (st : ProviderState) : String :=
  "🖥️ **MacMon System Status**\n\n**CPU**\n- Usage: " ++
  toString st.cpu_percent ++ "% (" ++ toString st.cpu_count ++
  " cores)\n- Load Average: " ++
  toString st.load1 ++ ", " ++ toString st.load5 ++ ", " ++
  toString st.load15 ++
  "\n\n**Memory**\n- RAM: " ++ toString st.memory_percent ++ "% used (" ++
  format_bytes st.memory_used ++ " / " ++ format_bytes st.memory_total ++
  ")\n- Swap: " ++ toString st.swap_percent ++ "% used (" ++
  format_bytes st.swap_used ++ " / " ++ format_bytes st.swap_total ++
  ")\n- Available: " ++ format_bytes st.memory_available ++
  "\n\n**Storage**\n- Disk Usage: " ++ toString st.disk_percent ++
  "% used\n- Used: " ++ format_bytes st.disk_used ++ " / " ++
  format_bytes st.disk_total ++ "\n- Free: " ++
  format_bytes st.disk_free ++
  "\n\n**System**\n- Uptime: " ++ format_uptime st.uptime_seconds ++
  "\n- Boot Time: " ++ st.boot_time_str

/-- Python thousands grouping (format specifier comma) of of a non-negative integer:
insert a comma after every three digits counted from the right.  The
helper works on the reversed digit list. -/
def groupThrees : List Char → List Char
  | c1 :: c2 :: c3 :: rest =>
    match rest with
    | [] => [c1, c2, c3]
    | _ :: _ => c1 :: c2 :: c3 :: ',' :: groupThrees rest
  | l => l

/-- Thousands-grouped rendering of `n : ℕ`. -/
def commaGroup (n : ℕ) : String :=
  String.mk (groupThrees (toString n).toList.reverse).reverse

/-- `get_network_stats` (`src/server.py:176-203`). -/
def get_network_stats (st : ProviderState) : String :=
  let base :=
    "🌐 **Network Statistics**\n\n**Data Transfer**\n- Sent: " ++
    format_bytes st.net.bytes_sent ++ "\n- Received: " ++
    format_bytes st.net.bytes_recv ++ "\n\n**Packets**\n- Sent: " ++
    commaGroup st.net.packets_sent ++ "\n- Received: " ++
    commaGroup st.net.packets_recv ++ "\n- Errors: " ++
    commaGroup (st.net.errin + st.net.errout) ++ "\n- Dropped: " ++
    commaGroup (st.net.dropin + st.net.dropout)
  let active := st.interfaces.flatMap fun p =>
    (p.2.filter (fun a => a.family == 2)).map fun a =>
      "• " ++ p.1 ++ ": " ++ a.address
  if active.isEmpty then base
  else base ++ "\n\n**Active Interfaces**\n" ++ String.intercalate "\n" active

/-- The `enumerate(cpu_percent_per_core)` loop of `get_cpu_details`
(`src/server.py:227-228`). -/
def coreLines : ℕ → List ℚ → String
  | _, [] => ""
  | i, p :: rest =>
    "• Core " ++ toString i ++ ": " ++ toString p ++ "%\n" ++
    coreLines (i + 1) rest

/-- The optional frequency subsection of `get_cpu_details`
(`src/server.py:217-224`): omitted entirely when the provider read fails
or returns a falsy value. -/
def freqSection : Option CpuFreq → String
  | none => ""
  | some f =>
    "• Current Frequency: " ++ fmtFixed 2 f.current ++ " MHz\n" ++
    (if f.freqMax > 0 then
      "• Max Frequency: " ++ fmtFixed 2 f.freqMax ++ " MHz\n"
     else "")

/-- `get_cpu_details` (`src/server.py:205-236`). -/
def get_cpu_details (st : ProviderState) : String :=
  "🔧 **Detailed CPU Information**\n\n**Overall**\n- Physical Cores: " ++
  toString st.physical_cores ++ "\n- Logical Cores: " ++
  toString st.logical_cores ++ "\n" ++
  freqSection st.cpu_freq ++
  "\n**Per-Core Usage**\n" ++ coreLines 0 st.per_core ++
  "\n**Load Average**\n• 1 min: " ++ fmtFixed 2 st.load1 ++
  "\n• 5 min: " ++ fmtFixed 2 st.load5 ++
  "\n• 15 min: " ++ fmtFixed 2 st.load15

/-! ## Dispatch -/

/-- The decoded `arguments` dict of a `get_top_processes` call; a missing
key is `none`.  The outer `Option` models both `None` and the falsy empty
dict (`arguments.get(...) if arguments else default`). -/
structure ToolArgs where
  limit : Option ℕ
  sort_by : Option String

/-- The emoji marker chosen per alert level (`src/server.py:334`). -/
def alertEmoji (a : Alert) : String :=
  if a.level == "high" then "🔴" else "🟡"

/-- One line of the alert summary (`src/server.py:335`). -/
def alertLine (a : Alert) : String :=
  alertEmoji a ++ " **" ++ a.type ++ "**: " ++ a.message ++ "\n"

/-- `handle_call_tool` (`src/server.py:301-340`): the five-way name
dispatch.  A returned `list[TextContent]` is the `Except.ok` list of its
text fields; the `ValueError` raised for an unknown name is
`Except.error` with the same message. -/
def handle_call_tool (st : ProviderState) (name : String)
    (arguments : Option ToolArgs) : Except String (List String) :=
  if name == "get_system_status" then
    Except.ok [get_system_status st]
  else if name == "get_top_processes" then
    let limit := match arguments with
      | some a => a.limit.getD 10
      | none => 10
    let sort_by := match arguments with
      | some a => a.sort_by.getD "cpu"
      | none => "cpu"
    Except.ok [get_top_processes st.processes limit sort_by]
  else if name == "get_network_stats" then
    Except.ok [get_network_stats st]
  else if name == "get_cpu_details" then
    Except.ok [get_cpu_details st]
  else if name == "check_alerts" then
    let alerts := check_system_alerts st.alert_sample
    if alerts.isEmpty then
      Except.ok ["✅ All systems normal - no alerts"]
    else
      Except.ok [alerts.foldl (fun acc a => acc ++ alertLine a)
        "⚠️ **System Alerts**\n\n"]
  else
    Except.error ("Unknown tool: " ++ name)

/-- The fixed set of advertised tool names (`src/server.py:238-299`). -/
def knownToolNames : List String :=
  ["get_system_status", "get_top_processes", "get_network_stats",
   "get_cpu_details", "check_alerts"]

/-! ## Spec-side rendering rule for uptime -/

/-- Spec-side definition (for the uptime rendering claim only), following
the words of spec §4.2: given whole days, hours and minutes, render
days d, hours h and minutes m as in "1d 1h 30m" if days>0, else hours
and minutes as in "1h 30m" if hours>0, else minutes alone as in "30m". -/
def uptimeRender (d h m : ℤ) : String :=
  if 0 < d then
    toString d ++ "d " ++ toString h ++ "h " ++ toString m ++ "m"
  else if 0 < h then
    toString h ++ "h " ++ toString m ++ "m"
  else
    toString m ++ "m"

/-! ## Helper lemmas -/

/-- Floor of a rational division by a positive integer is the euclidean
division of the floor — the fact connecting the nested floor-mod
computation of `format_uptime` to a day/hour/minute decomposition. -/
lemma floor_div_int_pos (x : ℚ) (n : ℤ) (hn : 0 < n) :
    ⌊x / (n : ℚ)⌋ = ⌊x⌋ / n := by
  have hn0 : (0 : ℚ) < (n : ℚ) := by exact_mod_cast hn
  have hfl := Int.floor_le x
  have hfu := Int.lt_floor_add_one x
  have hd := Int.ediv_add_emod ⌊x⌋ n
  have hr0 : 0 ≤ ⌊x⌋ % n := Int.emod_nonneg _ (ne_of_gt hn)
  have hrn : ⌊x⌋ % n < n := Int.emod_lt_of_pos _ hn
  rw [Int.floor_eq_iff]
  constructor
  · rw [le_div_iff₀ hn0]
    have h1 : (⌊x⌋ / n) * n ≤ ⌊x⌋ := by rw [mul_comm]; linarith [hd, hr0]
    calc ((⌊x⌋ / n : ℤ) : ℚ) * (n : ℚ) = ((⌊x⌋ / n * n : ℤ) : ℚ) := by
          push_cast; ring
      _ ≤ ((⌊x⌋ : ℤ) : ℚ) := by exact_mod_cast h1
      _ ≤ x := hfl
  · rw [div_lt_iff₀ hn0]
    have hexp : (⌊x⌋ / n + 1) * n = n * (⌊x⌋ / n) + n := by ring
    have h2 : ⌊x⌋ + 1 ≤ (⌊x⌋ / n + 1) * n := by rw [hexp]; linarith [hd, hrn]
    calc x < ((⌊x⌋ : ℤ) : ℚ) + 1 := hfu
      _ ≤ (((⌊x⌋ / n + 1) * n : ℤ) : ℚ) := by exact_mod_cast h2
      _ = (((⌊x⌋ / n : ℤ) : ℚ) + 1) * (n : ℚ) := by push_cast; ring

/-- The hour count computed by `format_uptime` through the float
floor-modulus equals the floored total hours taken modulo 24. -/
lemma uptime_hours_eq (u : ℚ) :
    ⌊pymod u 86400 / 3600⌋ = ⌊u / 3600⌋ % 24 := by
  have h1 : pymod u 86400 / 3600 =
      u / 3600 - ((24 * ⌊u / 86400⌋ : ℤ) : ℚ) := by
    unfold pymod; push_cast; ring
  rw [h1, Int.floor_sub_int]
  have h3 : u / 86400 = (u / 3600) / ((24 : ℤ) : ℚ) := by push_cast; ring
  rw [h3, floor_div_int_pos _ 24 (by norm_num)]
  omega

/-- The minute count computed by `format_uptime` equals the floored total
minutes taken modulo 60. -/
lemma uptime_minutes_eq (u : ℚ) :
    ⌊pymod u 3600 / 60⌋ = ⌊u / 60⌋ % 60 := by
  have h1 : pymod u 3600 / 60 =
      u / 60 - ((60 * ⌊u / 3600⌋ : ℤ) : ℚ) := by
    unfold pymod; push_cast; ring
  rw [h1, Int.floor_sub_int]
  have h3 : u / 3600 = (u / 60) / ((60 : ℤ) : ℚ) := by push_cast; ring
  rw [h3, floor_div_int_pos _ 60 (by norm_num)]
  omega

lemma foldl_str_append (l : List String) (init : String) :
    l.foldl (· ++ ·) init = init ++ l.foldl (· ++ ·) "" := by
  induction l generalizing init with
  | nil => simp
  | cons a t ih =>
    simp only [List.foldl]
    rw [ih (init ++ a), ih ("" ++ a), String.empty_append, String.append_assoc]

lemma string_join_cons (a : String) (t : List String) :
    String.join (a :: t) = a ++ String.join t := by
  show (a :: t).foldl (· ++ ·) "" = a ++ t.foldl (· ++ ·) ""
  simp only [List.foldl]
  rw [foldl_str_append t ("" ++ a), String.empty_append]

/-- The string-accumulating `for` loop over the alert list equals the
concatenation of one rendered line per element. -/
lemma foldl_append_join {α : Type} (f : α → String) (l : List α)
    (init : String) :
    l.foldl (fun acc a => acc ++ f a) init = init ++ String.join (l.map f) := by
  induction l generalizing init with
  | nil => simp [String.join]
  | cons a t ih =>
    simp only [List.foldl, List.map]
    rw [ih (init ++ f a), string_join_cons, String.append_assoc]

/-- Inserting an element whose key equals `v` prepends it to the
key-`v` filtrate: every element skipped by `orderedInsert` has a
strictly larger key. -/
lemma orderedInsert_filter_key {α : Type} (k : α → ℚ) (v : ℚ) (x : α)
    (l : List α) (hx : k x = v) :
    (List.orderedInsert (fun a b => k b ≤ k a) x l).filter
        (fun p => decide (k p = v)) =
      x :: l.filter (fun p => decide (k p = v)) := by
  induction l with
  | nil => simp [hx]
  | cons y ys ih =>
    by_cases h : k y ≤ k x
    · simp only [List.orderedInsert, if_pos h]
      simp [hx]
    · have hy : ¬ k y = v := by
        intro hv; exact h (le_of_eq (hv.trans hx.symm))
      simp only [List.orderedInsert, if_neg h]
      simp [List.filter, hy, ih]

/-- Inserting an element whose key differs from `v` leaves the key-`v`
filtrate unchanged. -/
lemma orderedInsert_filter_ne {α : Type} (k : α → ℚ) (v : ℚ) (x : α)
    (l : List α) (hx : ¬ k x = v) :
    (List.orderedInsert (fun a b => k b ≤ k a) x l).filter
        (fun p => decide (k p = v)) =
      l.filter (fun p => decide (k p = v)) := by
  induction l with
  | nil => simp [hx]
  | cons y ys ih =>
    by_cases h : k y ≤ k x
    · simp only [List.orderedInsert, if_pos h]
      simp [List.filter, hx]
    · simp only [List.orderedInsert, if_neg h]
      simp [List.filter, ih]

/-- Stability of the modelled sort: restricting the sorted list to the
elements of any one key value reproduces the filtrate of the input, i.e. the
original relative order. -/
lemma insertionSort_filter_key {α : Type} (k : α → ℚ) (v : ℚ)
    (l : List α) :
    (List.insertionSort (fun a b => k b ≤ k a) l).filter
        (fun p => decide (k p = v)) =
      l.filter (fun p => decide (k p = v)) := by
  induction l with
  | nil => rfl
  | cons a t ih =>
    simp only [List.insertionSort]
    by_cases h : k a = v
    · rw [orderedInsert_filter_key k v a _ h, ih]
      simp [List.filter, h]
    · rw [orderedInsert_filter_ne k v a _ h, ih]
      simp [List.filter, h]

/-- `rneInt` moves its argument by at most one unit past the floor. -/
lemma rneInt_bounds (q : ℚ) : ⌊q⌋ ≤ rneInt q ∧ rneInt q ≤ ⌊q⌋ + 1 := by
  unfold rneInt
  split_ifs <;> omega

/-- Invariant of the scaling loop: a value below `1024 ^ (number of
remaining units)` leaves the loop inside the unit list, with a scaled
value in `[0, 1024)`. -/
lemma format_bytes_go_bounds :
    ∀ (us : List String) (b : ℚ), 0 ≤ b → b < 1024 ^ us.length →
      0 ≤ (format_bytes_go b us).1 ∧ (format_bytes_go b us).1 < 1024 := by
  intro us
  induction us with
  | nil =>
    intro b hb hlt
    refine ⟨hb, lt_trans ?_ (by norm_num : (1 : ℚ) < 1024)⟩
    simpa using hlt
  | cons u rest ih =>
    intro b hb hlt
    simp only [format_bytes_go]
    split_ifs with h
    · exact ⟨hb, h⟩
    · refine ih (b / 1024) (by positivity) ?_
      rw [div_lt_iff₀ (by norm_num : (0 : ℚ) < 1024)]
      calc b < 1024 ^ (u :: rest).length := hlt
        _ = 1024 ^ rest.length * 1024 := by
            rw [List.length_cons, pow_succ]

/-- Equality of the per-domain conditional of `check_system_alerts` with
the two-threshold selection rule of the spec, for any domain whose medium
threshold does not exceed its high threshold. -/
lemma domain_code_eq_spec (d : String) (med hi v : ℚ) (h : med ≤ hi) :
    (if v > med then
      [(⟨if v > hi then "high" else "medium", d, alertMessage d v, v⟩ :
         Alert)]
     else []) = alertForDomain d med (some hi) v := by
  simp only [alertForDomain]
  split_ifs <;> first | rfl | linarith

/-- Membership in a conditional singleton forces the element. -/
lemma mem_if_singleton {α : Type} {c : Prop} [Decidable c] {x a : α}
    (h : a ∈ (if c then [x] else [])) : a = x := by
  split_ifs at h with hc
  · simpa using h
  · simp at h

/-- The domain tags of the produced alerts always form a subsequence of
the full table order CPU, Memory, Disk, Swap. -/
lemma alerts_types_sublist (s : AlertSample) :
    ((check_system_alerts s).map Alert.type).Sublist
      ["CPU", "Memory", "Disk", "Swap"] := by
  unfold check_system_alerts
  have hsplit : ["CPU", "Memory", "Disk", "Swap"] =
      (["CPU"] ++ ["Memory"]) ++ ["Disk"] ++ ["Swap"] := rfl
  rw [hsplit]
  simp only [List.map_append]
  refine List.Sublist.append (List.Sublist.append
    (List.Sublist.append ?_ ?_) ?_) ?_ <;>
    split_ifs <;> simp

/-! ## Claim theorems -/

/-- C1: `check_system_alerts` evaluates each domain independently in the
fixed order CPU, Memory, Disk, Swap with severity `high` above the high
threshold, else `medium` above the medium threshold, else no Alert — it
coincides with the threshold table of the spec on every sample; the
sample (cpu 85, memory 50, disk 50, swap 10) yields exactly one
CPU/medium Alert, and (cpu 95, memory 97, disk 96, swap 80) yields CPU, Memory,
Disk high and Swap medium, in table order. -/
theorem evaluate_alerts_matches_spec :
    (∀ s : AlertSample, check_system_alerts s = evaluate_alerts_spec s) ∧
    (check_system_alerts ⟨85, 50, 50, 10⟩).map (fun a => (a.type, a.level)) =
      [("CPU", "medium")] ∧
    (check_system_alerts ⟨95, 97, 96, 80⟩).map (fun a => (a.type, a.level)) =
      [("CPU", "high"), ("Memory", "high"), ("Disk", "high"),
       ("Swap", "medium")] := by
  refine ⟨fun s => ?_, by decide, by decide⟩
  unfold check_system_alerts evaluate_alerts_spec
  rw [domain_code_eq_spec "CPU" 80 90 s.cpu (by norm_num),
      domain_code_eq_spec "Memory" 85 95 s.memory (by norm_num),
      domain_code_eq_spec "Disk" 90 95 s.disk (by norm_num)]
  rfl

/-- C2 counterexample: a negative elapsed duration does not render as
`"0m"` — the Python floor modulus wraps it, so −45 seconds renders as
`"23h 59m"`. -/
theorem format_uptime_negative_cex :
    (-45 : ℚ) ≤ 0 ∧ format_uptime (-45) = "23h 59m" ∧
      format_uptime (-45) ≠ "0m" := by
  refine ⟨by norm_num, ?_, ?_⟩
  · norm_num [format_uptime, pymod]
    rfl
  · norm_num [format_uptime, pymod]
    decide

/-- C2 (amended): a zero elapsed duration renders as `"0m"`. -/
theorem format_uptime_zero : format_uptime 0 = "0m" := by
  norm_num [format_uptime, pymod]
  rfl

/-- C4 counterexample: an elapsed duration of 90000 seconds is exactly
1 day 1 hour, so `format_uptime` renders `"1d 1h 0m"`, not the claimed
`"1d 1h 30m"` (which corresponds to 91800 seconds). -/
theorem format_uptime_90000_cex :
    format_uptime 90000 = "1d 1h 0m" ∧
      format_uptime 90000 ≠ "1d 1h 30m" := by
  constructor
  · norm_num [format_uptime, pymod]
    rfl
  · norm_num [format_uptime, pymod]
    decide

/-- C4 (amended): `format_uptime` renders the elapsed duration floored
to whole days/hours/minutes as days-hours-minutes when days>0, else
hours-minutes when hours>0, else minutes alone; 90000 s renders as
`"1d 1h 0m"`, 5400 s as `"1h 30m"` and 45 s as `"0m"`. -/
theorem format_uptime_render_spec :
    (∀ u : ℚ, format_uptime u =
      uptimeRender ⌊u / 86400⌋ (⌊u / 3600⌋ % 24) (⌊u / 60⌋ % 60)) ∧
    format_uptime 90000 = "1d 1h 0m" ∧
    format_uptime 5400 = "1h 30m" ∧
    format_uptime 45 = "0m" := by
  refine ⟨fun u => ?_, ?_, ?_, ?_⟩
  · simp only [format_uptime, uptimeRender]
    rw [uptime_hours_eq, uptime_minutes_eq]
  all_goals norm_num [format_uptime, pymod]
  all_goals rfl

/-- C7: a Swap Alert produced by `check_system_alerts` always has level
`"medium"` — the Swap branch assigns no `"high"` level however far the
swap percentage exceeds 75. -/
theorem swap_alerts_never_high :
    ∀ (s : AlertSample) (a : Alert),
      a ∈ check_system_alerts s → a.type = "Swap" → a.level = "medium" := by
  intro s a ha ht
  unfold check_system_alerts at ha
  rcases List.mem_append.mp ha with hl | h4
  · rcases List.mem_append.mp hl with hll | h3
    · rcases List.mem_append.mp hll with h1 | h2
      · have hx := mem_if_singleton h1
        subst hx
        simp at ht
      · have hx := mem_if_singleton h2
        subst hx
        simp at ht
    · have hx := mem_if_singleton h3
      subst hx
      simp at ht
  · have hx := mem_if_singleton h4
    subst hx
    rfl

/-- C7 witness: a swap reading of 99% produces a medium Alert. -/
theorem swap_alerts_never_high_witness :
    (Alert.mk "medium" "Swap" "Swap usage is 99%" (99 : ℚ)).level =
      "medium" :=
  swap_alerts_never_high ⟨0, 0, 0, 99⟩ _ (by decide) (by decide)

/-- Three processes used in the process-report example of the spec. -/
def procsExample : List ProcessEntry :=
  [⟨1, "alpha", 10, 30, 100⟩, ⟨2, "beta", 50, 20, 200⟩,
   ⟨3, "gamma", 10, 40, 300⟩]

/-- C5: `get_top_processes` stable-sorts the entries descending by the
selected fraction (the sorted list is a permutation, is pairwise
descending in the selected key, and restricted to any one key value
keeps the original provider order), truncates to the first `limit`
entries and renders them as a numbered list from 1; with 3 processes and
limit 10 all three are listed in sorted order numbered 1..3, and with
limit 0 only the header is rendered. -/
theorem build_process_report_spec :
    (∀ (ps : List ProcessEntry) (key : String),
      (sortedProcs key ps).Perm ps) ∧
    (∀ (ps : List ProcessEntry) (key : String),
      (sortedProcs key ps).Pairwise
        (fun a b => sortKeyOf key b ≤ sortKeyOf key a)) ∧
    (∀ (ps : List ProcessEntry) (key : String) (v : ℚ),
      (sortedProcs key ps).filter (fun p => decide (sortKeyOf key p = v)) =
        ps.filter (fun p => decide (sortKeyOf key p = v))) ∧
    (∀ (ps : List ProcessEntry) (limit : ℕ) (key : String),
      get_top_processes ps limit key =
        processHeader limit key ++
          renderProcEntries 1 ((sortedProcs key ps).take limit)) ∧
    (∀ (ps : List ProcessEntry) (key : String),
      get_top_processes ps 0 key = processHeader 0 key) ∧
    get_top_processes procsExample 10 "cpu" =
      "🔝 **Top 10 Processes by CPU**\n\n" ++
      "1. **beta** (PID: 2)\n   • CPU: 50.0%\n" ++
      "   • Memory: 20.0% (200.0 MB)\n\n" ++
      "2. **alpha** (PID: 1)\n   • CPU: 10.0%\n" ++
      "   • Memory: 30.0% (100.0 MB)\n\n" ++
      "3. **gamma** (PID: 3)\n   • CPU: 10.0%\n" ++
      "   • Memory: 40.0% (300.0 MB)\n\n" := by
  refine ⟨fun ps key => ?_, fun ps key => ?_, fun ps key v => ?_,
    fun ps limit key => rfl, fun ps key => ?_, ?_⟩
  · unfold sortedProcs
    split <;> exact List.perm_insertionSort _ ps
  · by_cases hk : (key == "memory") = true
    · simp only [sortedProcs, sortKeyOf, hk, if_true]
      haveI : IsTotal ProcessEntry
          fun a b => b.memory_percent ≤ a.memory_percent :=
        ⟨fun a b => le_total _ _⟩
      haveI : IsTrans ProcessEntry
          fun a b => b.memory_percent ≤ a.memory_percent :=
        ⟨fun a b c hab hbc => le_trans hbc hab⟩
      exact List.sorted_insertionSort _ ps
    · rw [Bool.not_eq_true] at hk
      simp only [sortedProcs, sortKeyOf, hk, Bool.false_eq_true, if_false]
      haveI : IsTotal ProcessEntry
          fun a b => b.cpu_percent ≤ a.cpu_percent :=
        ⟨fun a b => le_total _ _⟩
      haveI : IsTrans ProcessEntry
          fun a b => b.cpu_percent ≤ a.cpu_percent :=
        ⟨fun a b c hab hbc => le_trans hbc hab⟩
      exact List.sorted_insertionSort _ ps
  · by_cases hk : (key == "memory") = true
    · simp only [sortedProcs, sortKeyOf, hk, if_true]
      exact insertionSort_filter_key (fun p => p.memory_percent) v ps
    · rw [Bool.not_eq_true] at hk
      simp only [sortedProcs, sortKeyOf, hk, Bool.false_eq_true, if_false]
      exact insertionSort_filter_key (fun p => p.cpu_percent) v ps
  · simp [get_top_processes, renderProcEntries]
  · norm_num [get_top_processes, processHeader, sortedProcs, procsExample,
      renderProcEntries, fmtFixed, rneInt, Int.fract, padZeros,
      List.insertionSort, List.orderedInsert]
    set_option maxRecDepth 20000 in decide

/-- C10: any `sort_by` value other than the exact string `"memory"` is
silently treated as `"cpu"`: the report is rendered from the
cpu-descending sort, with no error path. -/
theorem invalid_sort_key_uses_cpu :
    ∀ (ps : List ProcessEntry) (limit : ℕ) (key : String),
      key ≠ "memory" →
        get_top_processes ps limit key =
          processHeader limit key ++
            renderProcEntries 1
              ((List.insertionSort
                  (fun a b : ProcessEntry => b.cpu_percent ≤ a.cpu_percent)
                  ps).take limit) := by
  intro ps limit key h
  have hk : (key == "memory") = false := beq_eq_false_iff_ne.mpr h
  simp [get_top_processes, sortedProcs, hk]

/-- C10 witness: the unrecognized key `"bogus"` renders via the cpu
sort. -/
theorem invalid_sort_key_uses_cpu_witness :
    get_top_processes [] 0 "bogus" =
      processHeader 0 "bogus" ++
        renderProcEntries 1
          ((List.insertionSort
              (fun a b : ProcessEntry => b.cpu_percent ≤ a.cpu_percent)
              []).take 0) :=
  invalid_sort_key_uses_cpu [] 0 "bogus" (by decide)

/-- A concrete quiet provider snapshot used by witnesses: every alert
percentage is zero. -/
def sampleState : ProviderState where
  cpu_percent := 12
  cpu_count := 8
  load1 := 1
  load5 := 1
  load15 := 1
  memory_percent := 40
  memory_used := 4096
  memory_total := 8192
  memory_available := 4096
  swap_percent := 0
  swap_used := 0
  swap_total := 0
  disk_percent := 50
  disk_used := 2048
  disk_total := 4096
  disk_free := 2048
  uptime_seconds := 45
  boot_time_str := "2026-01-01 00:00:00"
  net := ⟨0, 0, 0, 0, 0, 0, 0, 0⟩
  interfaces := []
  per_core := [12]
  physical_cores := 4
  logical_cores := 8
  cpu_freq := none
  processes := []
  alert_sample := ⟨0, 0, 0, 0⟩

/-- C6: the `check_alerts` branch of the dispatch returns the exact
fixed no-alerts text on an empty Alert list, otherwise the fixed header
followed by exactly one line per Alert (each line built from the
domain and message of that Alert), and the Alert domains always follow the
table order CPU, Memory, Disk, Swap. -/
theorem check_alerts_roundtrip :
    ∀ (st : ProviderState) (args : Option ToolArgs),
      (check_system_alerts st.alert_sample = [] →
        handle_call_tool st "check_alerts" args =
          Except.ok ["✅ All systems normal - no alerts"]) ∧
      (check_system_alerts st.alert_sample ≠ [] →
        handle_call_tool st "check_alerts" args =
          Except.ok ["⚠️ **System Alerts**\n\n" ++
            String.join
              ((check_system_alerts st.alert_sample).map alertLine)]) ∧
      ((check_system_alerts st.alert_sample).map Alert.type).Sublist
        ["CPU", "Memory", "Disk", "Swap"] := by
  intro st args
  refine ⟨fun h => ?_, fun h => ?_, alerts_types_sublist _⟩
  · simp [handle_call_tool, h]
  · have hne : (check_system_alerts st.alert_sample).isEmpty = false := by
      cases hl : check_system_alerts st.alert_sample with
      | nil => exact absurd hl h
      | cons x t => rfl
    simp [handle_call_tool, hne, foldl_append_join]

/-- C6 witness: the quiet snapshot produces the fixed no-alerts text. -/
theorem check_alerts_roundtrip_witness :
    handle_call_tool sampleState "check_alerts" none =
      Except.ok ["✅ All systems normal - no alerts"] :=
  (check_alerts_roundtrip sampleState none).1 (by decide)

/-- C8: a requested name outside the five advertised tools makes the
dispatch signal the `Unknown tool` invocation error, while each of the
five advertised names returns a text result. -/
theorem unknown_tool_dispatch :
    (∀ (st : ProviderState) (args : Option ToolArgs) (name : String),
      name ∉ knownToolNames →
        handle_call_tool st name args =
          Except.error ("Unknown tool: " ++ name)) ∧
    (∀ (st : ProviderState) (args : Option ToolArgs) (name : String),
      name ∈ knownToolNames →
        ∃ ts, handle_call_tool st name args = Except.ok ts) := by
  constructor
  · intro st args name h
    simp only [knownToolNames, List.mem_cons, List.not_mem_nil, or_false,
      not_or] at h
    obtain ⟨h1, h2, h3, h4, h5⟩ := h
    simp [handle_call_tool, h1, h2, h3, h4, h5]
  · intro st args name h
    simp only [knownToolNames, List.mem_cons, List.not_mem_nil,
      or_false] at h
    rcases h with rfl | rfl | rfl | rfl | rfl
    · exact ⟨_, rfl⟩
    · exact ⟨_, rfl⟩
    · exact ⟨_, rfl⟩
    · exact ⟨_, rfl⟩
    · cases hE : (check_system_alerts st.alert_sample).isEmpty
      · exact ⟨[(check_system_alerts st.alert_sample).foldl
            (fun acc a => acc ++ alertLine a) "⚠️ **System Alerts**\n\n"],
          by simp [handle_call_tool, hE]⟩
      · exact ⟨["✅ All systems normal - no alerts"],
          by simp [handle_call_tool, hE]⟩

/-- C8 witness: the unknown name `"bogus"` errors, and the advertised
name `"check_alerts"` returns text. -/
theorem unknown_tool_dispatch_witness :
    handle_call_tool sampleState "bogus" none =
        Except.error ("Unknown tool: " ++ "bogus") ∧
      ∃ ts, handle_call_tool sampleState "check_alerts" none =
        Except.ok ts :=
  ⟨unknown_tool_dispatch.1 sampleState none "bogus" (by decide),
   unknown_tool_dispatch.2 sampleState none "check_alerts" (by decide)⟩

/-- C9: `format_bytes` scales by factors of 1024 across the unit ladder
with one decimal place — a value in `[0, 1024)` renders in `B`, a value
in `[1024, 1024²)` renders as its quotient by 1024 in `KB` — and on the
examples of the spec: 0 ↦ `"0.0B"`, 1024 ↦ `"1.0KB"`, 1536 ↦ `"1.5KB"`,
1024⁴ ↦ `"1.0TB"`. -/
theorem format_bytes_scaling :
    (∀ b : ℚ, 0 ≤ b → b < 1024 → format_bytes b = fmtFixed 1 b ++ "B") ∧
    (∀ b : ℚ, 1024 ≤ b → b < 1024 ^ 2 →
      format_bytes b = fmtFixed 1 (b / 1024) ++ "KB") ∧
    format_bytes 0 = "0.0B" ∧ format_bytes 1024 = "1.0KB" ∧
    format_bytes 1536 = "1.5KB" ∧ format_bytes ((1024 : ℚ) ^ 4) = "1.0TB" := by
  refine ⟨fun b h0 h1 => ?_, fun b h0 h1 => ?_, ?_, ?_, ?_, ?_⟩
  · simp only [format_bytes, byteUnits, format_bytes_go, if_pos h1]
  · have hn : ¬ b < 1024 := not_lt.mpr h0
    have hq : b / 1024 < 1024 := by
      rw [div_lt_iff₀ (by norm_num : (0 : ℚ) < 1024)]
      calc b < 1024 ^ 2 := h1
        _ = 1024 * 1024 := by norm_num
    simp only [format_bytes, byteUnits, format_bytes_go, if_neg hn,
      if_pos hq]
  all_goals norm_num [format_bytes, format_bytes_go, byteUnits, fmtFixed,
    rneInt, Int.fract]
  all_goals rfl

/-- C9 witness: 512 bytes stay in the `B` unit. -/
theorem format_bytes_scaling_witness :
    format_bytes 512 = fmtFixed 1 512 ++ "B" :=
  format_bytes_scaling.1 512 (by norm_num) (by norm_num)

/-- C3 counterexample: the leading numeric value of `format_bytes` is
not always below 1024 — rounding 1048525/1024 ≈ 1023.95 to one decimal
place prints `"1024.0KB"`, and byte counts from 1024⁶ on scale into `PB`
with an unbounded leading value (1024⁷ prints `"1048576.0PB"`). -/
theorem format_bytes_leading_cex :
    (0 : ℚ) ≤ 1048525 ∧ ¬ format_bytes_leading 1048525 < 1024 ∧
      format_bytes_leading ((1024 : ℚ) ^ 7) = 1048576 := by
  refine ⟨by norm_num, ?_, ?_⟩ <;>
    norm_num [format_bytes_leading, format_bytes_go, byteUnits, rneInt,
      Int.fract]

/-- C3 (amended): for every non-negative byte count below 1024⁵ — those
rendered with a unit below `PB` — the leading numeric value of the
output lies in the closed interval `[0, 1024]`: the scaled value itself
lies in `[0, 1024)` and rounding to one decimal place can reach exactly
1024.0; from 1024⁵ on the unit is `PB` and the leading value grows
without bound. -/
theorem format_bytes_leading_bounded :
    ∀ b : ℚ, 0 ≤ b → b < 1024 ^ 5 →
      0 ≤ format_bytes_leading b ∧ format_bytes_leading b ≤ 1024 := by
  intro b hb hlt
  have hgo := format_bytes_go_bounds byteUnits b hb hlt
  have h10 : (0 : ℚ) ≤ (format_bytes_go b byteUnits).1 * 10 := by
    nlinarith [hgo.1]
  have hup : (format_bytes_go b byteUnits).1 * 10 < 10240 := by
    nlinarith [hgo.2]
  have hfl0 : 0 ≤ ⌊(format_bytes_go b byteUnits).1 * 10⌋ :=
    Int.floor_nonneg.mpr h10
  have hflu : ⌊(format_bytes_go b byteUnits).1 * 10⌋ < 10240 := by
    rw [Int.floor_lt]
    exact_mod_cast hup
  have hrb := rneInt_bounds ((format_bytes_go b byteUnits).1 * 10)
  unfold format_bytes_leading
  constructor
  · apply div_nonneg _ (by norm_num : (0 : ℚ) ≤ 10)
    exact_mod_cast le_trans hfl0 hrb.1
  · rw [div_le_iff₀ (by norm_num : (0 : ℚ) < 10)]
    have hle : rneInt ((format_bytes_go b byteUnits).1 * 10) ≤ 10240 := by
      omega
    calc ((rneInt ((format_bytes_go b byteUnits).1 * 10) : ℤ) : ℚ)
        ≤ ((10240 : ℤ) : ℚ) := by exact_mod_cast hle
      _ = 1024 * 10 := by norm_num

/-- C3 witness: a zero byte count has leading value 0, inside the
bound. -/
theorem format_bytes_leading_bounded_witness :
    0 ≤ format_bytes_leading 0 ∧ format_bytes_leading 0 ≤ 1024 :=
  format_bytes_leading_bounded 0 (by norm_num) (by norm_num)

end Macmon
